import Mathlib

/-!
Shallow embedding of `lib/minio.js` from loopback-connector-minio.

The connector wraps a minio client: `connect` lazily constructs the client
from a filtered settings object and publishes an operation table
(`setupDataAccessObject`); every storage operation forwards its arguments to
one underlying client call and adapts the outcome (promise rejection /
resolution, raw stream hand-off, or caller-supplied callback).

JavaScript values are modelled by `JSVal`; promises by their eventual
outcome `Except JSVal JSVal` (rejection value / resolution value); the
underlying client call by the data it reports (callback `(err, data)` pair,
or the stream handle it returns synchronously).
-/

/-- Model of a JavaScript value, covering the fragment the connector
manipulates: `undefined`, `null`, `NaN`, booleans, numbers, strings,
`Date` objects (by their millisecond value), arrays and plain objects
(as ordered key/value lists). -/
inductive JSVal where
  | undefined : JSVal
  | null : JSVal
  | nan : JSVal
  | bool (b : Bool) : JSVal
  | num (n : Int) : JSVal
  | str (s : String) : JSVal
  | date (ms : Int) : JSVal
  | arr (elems : List JSVal) : JSVal
  | obj (fields : List (String × JSVal)) : JSVal

/-- JavaScript truthiness: `undefined`, `null`, `NaN`, `false`, `0` and the
empty string are falsy; every object, array and date is truthy. -/
def truthy : JSVal → Bool
  | .undefined => false
  | .null => false
  | .nan => false
  | .bool b => b
  | .num n => n != 0
  | .str s => !s.isEmpty
  | .date _ => true
  | .arr _ => true
  | .obj _ => true

/-- Strict comparison `v === undefined`, as used by `makeBucket`. -/
def isUndefined : JSVal → Bool
  | .undefined => true
  | _ => false

/-- Property read `o.k` on an object modelled as a key/value list: the first
binding wins, a missing key reads as `undefined`. -/
def jsGet (fields : List (String × JSVal)) (k : String) : JSVal :=
  match fields.find? (fun kv => kv.1 == k) with
  | some kv => kv.2
  | none => .undefined

/-- Escape of one character inside a JSON string literal (quote and
backslash; the development never stringifies control characters). -/
def jsonEscapeChar (c : Char) : String :=
  if c = '"' then "\\\"" else if c = '\\' then "\\\\" else String.singleton c

/-- A JSON string literal: the escaped characters between double quotes. -/
def jsonQuote (s : String) : String :=
  "\"" ++ String.join (s.toList.map jsonEscapeChar) ++ "\""

mutual

/-- Rendering of a value as JSON source text, modelling the builtin
`JSON.stringify` on the fragment `setBucketPolicy` can receive. `undefined`
and `NaN` render as `null` (as they do inside a JSON array); `Date` values
render as their quoted millisecond value (never evaluated here). -/
def jsonStr : JSVal → String
  | .undefined => "null"
  | .null => "null"
  | .nan => "null"
  | .bool b => if b then "true" else "false"
  | .num n => toString n
  | .str s => jsonQuote s
  | .date ms => jsonQuote (toString ms)
  | .arr elems => "[" ++ String.intercalate "," (jsonElems elems) ++ "]"
  | .obj fields => "\x7b" ++ String.intercalate "," (jsonFields fields) ++ "\x7d"

/-- JSON rendering of array elements, in order. -/
def jsonElems : List JSVal → List String
  | [] => []
  | v :: vs => jsonStr v :: jsonElems vs

/-- JSON rendering of object fields; fields whose value is `undefined` are
skipped, as `JSON.stringify` does. -/
def jsonFields : List (String × JSVal) → List String
  | [] => []
  | (_, JSVal.undefined) :: fs => jsonFields fs
  | (k, v) :: fs => (jsonQuote k ++ ":" ++ jsonStr v) :: jsonFields fs

end

/-- Model of the builtin `JSON.stringify`: `undefined` at top level yields
`undefined`, every other value yields its JSON text. -/
def jsonStringify : JSVal → JSVal
  | .undefined => .undefined
  | v => .str (jsonStr v)

/-- The recognized option keys of `MinioDB.prototype.connect`
(`validOptionNames`, lib/minio.js lines 103-116). -/
def validOptionNames : List String :=
  ["bucketName", "endPoint", "port", "useSSL", "accessKey", "secretKey",
   "region", "transport", "sessionToken", "partSize", "pathStyle",
   "transportAgent"]

/-- The option-filtering loop of `connect` (lib/minio.js lines 118-124):
`Object.keys(self.settings).forEach` copies each setting whose key has
`validOptionNames.indexOf(option) > -1` into `validOptions`, preserving key
order; every other key is dropped. -/
def filterValidOptions (settings : List (String × JSVal)) : List (String × JSVal) :=
  settings.foldl
    (fun acc kv => if validOptionNames.contains kv.1 then acc ++ [kv] else acc) []

/-- Connector state relevant to `connect`: the settings given at
construction, the lazily created client handle (`self.client`), the
data source's `connecting` flag, and whether `setupDataAccessObject` has
published the operation table. -/
structure Connector where
  settings : List (String × JSVal)
  client : Option JSVal
  dataSourceConnecting : Bool
  daoPublished : Bool

/-- Observable result of one `connect(callback)` call: the callback invoked
with `(err, value)` and the connector state afterwards, a deferred wait on
the data source's `connected` event, or an exception propagating
synchronously out of `connect`. -/
inductive ConnectResult where
  | callback (err : JSVal) (val : JSVal) (after : Connector)
  | waitConnected (after : Connector)
  | thrown (e : JSVal) (after : Connector)

/-- Whether the result delivered anything through the caller's callback. -/
def ConnectResult.invokedCallback : ConnectResult → Bool
  | .callback _ _ _ => true
  | _ => false

/-- Embedding of `MinioDB.prototype.connect` (lib/minio.js lines 90-144).
`ctor` is the behavior of `new minio.Client(validOptions)`: it either
returns a handle or throws. If `self.client` is set the callback fires with
`(null, self.client)` and nothing else happens; if the data source is
`connecting` the call waits for the `connected` event; otherwise the client
is built from the filtered options and, on success, `self.client` is set,
the operation table is published and the callback fires with the new
handle. The body has no try/catch, so a throwing constructor propagates out
of `connect` with the state unchanged (the `onError` helper defined at
lines 127-137 is never invoked). -/
def connect (ctor : List (String × JSVal) → Except JSVal JSVal)
    (s : Connector) : ConnectResult :=
  match s.client with
  | some c => .callback .null c s
  | none =>
    if s.dataSourceConnecting then
      .waitConnected s
    else
      match ctor (filterValidOptions s.settings) with
      | .error e => .thrown e s
      | .ok c => .callback .null c { s with client := some c, daoPublished := true }

/-- The `MinioDB` constructor (lib/minio.js lines 52-78): it records the
settings and creates no client handle. -/
def newMinioDB (settings : List (String × JSVal)) : Connector :=
  { settings := settings, client := none,
    dataSourceConnecting := false, daoPublished := false }

/-- What `initializeDataSource` does after constructing the connector:
schedule the callback on the next tick without connecting, call
`connect(callback)` immediately, or (no callback given) nothing. -/
inductive InitAction where
  | scheduledCallbackOnly : InitAction
  | connectCalled : InitAction
  | noAction : InitAction

/-- Embedding of `exports.initialize = initializeDataSource`
(lib/minio.js lines 22-42): the connector is constructed from the settings;
then, when a callback is given, a truthy `settings.lazyConnect` schedules
the bare callback via `process.nextTick` and `connect` is never called,
otherwise `connect(callback)` is called. -/
def initializeDataSource (settings : List (String × JSVal))
    (hasCallback : Bool) : Connector × InitAction :=
  let conn := newMinioDB settings
  if hasCallback then
    if truthy (jsGet settings "lazyConnect") then
      (conn, .scheduledCallbackOnly)
    else
      (conn, .connectCalled)
  else
    (conn, .noAction)

/-- Enumeration of the storage operations defined on `MinioDB.prototype`
(every method of lib/minio.js other than the lifecycle helpers `connect`,
`setupDataAccessObject` and `getTypes`). -/
inductive Op where
  | makeBucket | bucketExists | removeBucket | listBuckets
  | listObjects | listObjectsV2 | listObjectsV2WithMetadata
  | listIncompleteUploads
  | getBucketVersioning | setBucketVersioning
  | setBucketReplication | getBucketReplication | removeBucketReplication
  | getBucketTagging | setBucketTagging | removeBucketTagging
  | setBucketLifecycle | getBucketLifecycle | removeBucketLifecycle
  | setObjectLockConfig | getObjectLockConfig
  | getBucketEncryption | setBucketEncryption | removeBucketEncryption
  | setBucketPolicy | getBucketPolicy
  | getBucketNotification | setBucketNotification
  | removeAllBucketNotification | listenBucketNotification
  | getObject | getPartialObject | fGetObject
  | putObject | fPutObject | copyObject | statObject
  | removeObject | removeObjects | removeIncompleteUpload
  | putObjectRetention | getObjectRetention | setObjectRetention
  | setObjectTagging | getObjectTagging | removeObjectTagging
  | getObjectLegalHold | setObjectLegalHold
  | composeObject | selectObjectContent
  | presignedUrl | presignedGetObject | presignedPutObject
  | presignedPostPolicy
deriving DecidableEq, Repr

/-- What a callback-terminated operation resolves with on success:
the callback's `data` (`resolve(data)`), nothing (`resolve()`), or the
literal `true` (`resolve(true)`, only `removeObject`). -/
inductive RetShape where
  | passData : RetShape
  | unitRet : RetShape
  | constTrue : RetShape
deriving DecidableEq, Repr

/-- The four body patterns the operations follow in lib/minio.js:
`cbPromise r` returns `new Promise` around a callback-terminated client
call (`if (err) reject(err) else resolve(...)` per `r`);
`streamPromise` returns `new Promise` that immediately resolves with the
handle the client call returned synchronously;
`cbOnly` returns `undefined` and reports through the caller-supplied
callback (`callback(err)` / `callback(null, data)`) — only
`getBucketVersioning`;
`cbPromiseNoReturn r` builds the same promise as `cbPromise r` but does not
return it, so the method returns `undefined` — only `setBucketVersioning`. -/
inductive OpShape where
  | cbPromise (r : RetShape) : OpShape
  | streamPromise : OpShape
  | cbOnly : OpShape
  | cbPromiseNoReturn (r : RetShape) : OpShape
deriving DecidableEq, Repr

/-- Body pattern of each operation, read off the corresponding method of
lib/minio.js (see the `OpShape` doc for the patterns). -/
def shape : Op → OpShape
  | .makeBucket => .cbPromise .unitRet
  | .bucketExists => .cbPromise .passData
  | .removeBucket => .cbPromise .unitRet
  | .listBuckets => .cbPromise .passData
  | .listObjects => .streamPromise
  | .listObjectsV2 => .streamPromise
  | .listObjectsV2WithMetadata => .streamPromise
  | .listIncompleteUploads => .streamPromise
  | .getBucketVersioning => .cbOnly
  | .setBucketVersioning => .cbPromiseNoReturn .passData
  | .setBucketReplication => .cbPromise .passData
  | .getBucketReplication => .cbPromise .passData
  | .removeBucketReplication => .cbPromise .passData
  | .getBucketTagging => .cbPromise .passData
  | .setBucketTagging => .cbPromise .passData
  | .removeBucketTagging => .cbPromise .passData
  | .setBucketLifecycle => .cbPromise .passData
  | .getBucketLifecycle => .cbPromise .passData
  | .removeBucketLifecycle => .cbPromise .passData
  | .setObjectLockConfig => .cbPromise .passData
  | .getObjectLockConfig => .cbPromise .passData
  | .getBucketEncryption => .cbPromise .passData
  | .setBucketEncryption => .cbPromise .passData
  | .removeBucketEncryption => .cbPromise .passData
  | .setBucketPolicy => .cbPromise .passData
  | .getBucketPolicy => .cbPromise .passData
  | .getBucketNotification => .cbPromise .passData
  | .setBucketNotification => .cbPromise .passData
  | .removeAllBucketNotification => .cbPromise .unitRet
  | .listenBucketNotification => .streamPromise
  | .getObject => .streamPromise
  | .getPartialObject => .streamPromise
  | .fGetObject => .cbPromise .passData
  | .putObject => .cbPromise .passData
  | .fPutObject => .cbPromise .passData
  | .copyObject => .cbPromise .passData
  | .statObject => .cbPromise .passData
  | .removeObject => .cbPromise .constTrue
  | .removeObjects => .cbPromise .passData
  | .removeIncompleteUpload => .cbPromise .passData
  | .putObjectRetention => .cbPromise .passData
  | .getObjectRetention => .cbPromise .passData
  | .setObjectRetention => .cbPromise .unitRet
  | .setObjectTagging => .cbPromise .passData
  | .getObjectTagging => .cbPromise .passData
  | .removeObjectTagging => .cbPromise .passData
  | .getObjectLegalHold => .cbPromise .passData
  | .setObjectLegalHold => .cbPromise .passData
  | .composeObject => .cbPromise .passData
  | .selectObjectContent => .streamPromise
  | .presignedUrl => .cbPromise .passData
  | .presignedGetObject => .cbPromise .passData
  | .presignedPutObject => .cbPromise .passData
  | .presignedPostPolicy => .cbPromise .passData

/-- The value a callback-terminated body resolves with, per `RetShape`. -/
def resolveValue : RetShape → JSVal → JSVal
  | .passData, data => data
  | .unitRet, _ => .undefined
  | .constTrue, _ => .bool true

/-- Outcome of the promise a callback-terminated body builds, given the
`(err, data)` the client call reports: `if (err) reject(err)` else resolve
per the shape. -/
def cbOutcome (r : RetShape) (err data : JSVal) : Except JSVal JSVal :=
  if truthy err then .error err else .ok (resolveValue r data)

/-- Observable behavior of one operation call:
`returned` is the eventual outcome of the promise the method returned
(`none` when the method returns `undefined`);
`callbackArgs` is the argument list the caller-supplied callback is invoked
with, when the body invokes one;
`orphanOutcome` is the eventual outcome of a promise the body built but
did not return (only `setBucketVersioning`). -/
structure OpResult where
  returned : Option (Except JSVal JSVal)
  callbackArgs : Option (List JSVal)
  orphanOutcome : Option (Except JSVal JSVal)

/-- Behavior of operation `op` when the underlying client call reports
`(err, data)` through its callback, or returns `stream` synchronously. -/
def runOp (op : Op) (err data stream : JSVal) : OpResult :=
  match shape op with
  | .cbPromise r =>
    { returned := some (cbOutcome r err data), callbackArgs := none,
      orphanOutcome := none }
  | .streamPromise =>
    { returned := some (.ok stream), callbackArgs := none,
      orphanOutcome := none }
  | .cbOnly =>
    { returned := none,
      callbackArgs := some (if truthy err then [err] else [JSVal.null, data]),
      orphanOutcome := none }
  | .cbPromiseNoReturn r =>
    { returned := none, callbackArgs := none,
      orphanOutcome := some (cbOutcome r err data) }

/-- One call into the underlying minio client: the client method invoked
and the positional arguments it receives (the trailing completion callback,
when the method takes one, is not listed). -/
structure ClientCall where
  method : String
  args : List JSVal

/-- The `expiration` field `presignedPostPolicy` builds:
`new Date(Date.now() + expiresInSeconds * 1000)`, with `Date.now()` passed
in as `now`; a non-numeric `expiresInSeconds` yields an invalid date,
modelled as `NaN`. -/
def postPolicyExpiration (now : Int) (expiresInSeconds : JSVal) : JSVal :=
  match expiresInSeconds with
  | .num n => .date (now + n * 1000)
  | _ => .nan

/-- The policy object literal `presignedPostPolicy` passes to the client
(lib/minio.js lines 1689-1696); note it uses `objectName`, not the
`objectNamePrefix` parameter, in the `starts-with` condition. -/
def postPolicyObj (now : Int) (bucketName objectName expiresInSeconds : JSVal) : JSVal :=
  .obj [("expiration", postPolicyExpiration now expiresInSeconds),
        ("conditions", .arr
          [.arr [.str "starts-with", .str "$key", objectName],
           .obj [("bucket", bucketName)],
           .obj [("acl", .str "private")]])]

/-- The empty notification configuration `removeAllBucketNotification`
builds internally (lib/minio.js lines 1782-1786). -/
def emptyNotificationConfig : JSVal :=
  .obj [("QueueConfiguration", .obj []),
        ("TopicConfiguration", .obj []),
        ("LambdaFunctionConfiguration", .obj [])]

/-- The client call each operation makes, read off the corresponding method
body of lib/minio.js. `p i` is the i-th argument the caller supplied
(`undefined` beyond the supplied ones, as in JavaScript); `now` is
`Date.now()`, used only by `presignedPostPolicy`. Aliased client methods
(`setBucketLifecycle` calls `putBucketLifecycleConfiguration`, etc.) and
argument repackaging (`listObjectsV2`, `listIncompleteUploads`,
`getBucketVersioning` wrap their parameters in one options object;
`setBucketPolicy` stringifies the policy; `removeAllBucketNotification` and
`presignedPostPolicy` build an argument internally) are reproduced
verbatim. -/
def clientCall (op : Op) (now : Int) (p : Nat → JSVal) : ClientCall :=
  match op with
  | .makeBucket =>
    if isUndefined (p 1) then ⟨"makeBucket", [p 0]⟩ else ⟨"makeBucket", [p 0, p 1]⟩
  | .bucketExists => ⟨"bucketExists", [p 0]⟩
  | .removeBucket => ⟨"removeBucket", [p 0]⟩
  | .listBuckets => ⟨"listBuckets", []⟩
  | .listObjects => ⟨"listObjects", [p 0, p 1, p 2, p 3]⟩
  | .listObjectsV2 =>
    ⟨"listObjectsV2",
     [.obj [("Bucket", p 0), ("Prefix", p 1), ("Recursive", p 2)]]⟩
  | .listObjectsV2WithMetadata => ⟨"listObjectsV2", [p 0, p 1, p 2, p 3]⟩
  | .listIncompleteUploads =>
    ⟨"listIncompleteUploads",
     [.obj [("Bucket", p 0), ("Prefix", p 1), ("Recursive", p 2)]]⟩
  | .getBucketVersioning => ⟨"getBucketVersioning", [.obj [("Bucket", p 0)]]⟩
  | .setBucketVersioning => ⟨"setBucketVersioning", [p 0, p 1]⟩
  | .setBucketReplication => ⟨"setBucketReplication", [p 0, p 1]⟩
  | .getBucketReplication => ⟨"getBucketReplication", [p 0]⟩
  | .removeBucketReplication => ⟨"removeBucketReplication", [p 0]⟩
  | .getBucketTagging => ⟨"getBucketTagging", [p 0]⟩
  | .setBucketTagging => ⟨"setBucketTagging", [p 0, p 1]⟩
  | .removeBucketTagging => ⟨"removeBucketTagging", [p 0]⟩
  | .setBucketLifecycle => ⟨"putBucketLifecycleConfiguration", [p 0, p 1]⟩
  | .getBucketLifecycle => ⟨"getBucketLifecycleConfiguration", [p 0]⟩
  | .removeBucketLifecycle => ⟨"removeBucketLifecycleConfiguration", [p 0]⟩
  | .setObjectLockConfig => ⟨"putObjectLockConfiguration", [p 0, p 1]⟩
  | .getObjectLockConfig => ⟨"getObjectLockConfiguration", [p 0]⟩
  | .getBucketEncryption => ⟨"getBucketEncryption", [p 0]⟩
  | .setBucketEncryption => ⟨"setBucketEncryption", [p 0, p 1]⟩
  | .removeBucketEncryption => ⟨"removeBucketEncryption", [p 0]⟩
  | .setBucketPolicy => ⟨"setBucketPolicy", [p 0, jsonStringify (p 1)]⟩
  | .getBucketPolicy => ⟨"getBucketPolicy", [p 0]⟩
  | .getBucketNotification => ⟨"getBucketNotification", [p 0]⟩
  | .setBucketNotification => ⟨"setBucketNotification", [p 0, p 1]⟩
  | .removeAllBucketNotification =>
    ⟨"setBucketNotification", [p 0, emptyNotificationConfig]⟩
  | .listenBucketNotification => ⟨"listenBucketNotification", [p 0]⟩
  | .getObject => ⟨"getObject", [p 0, p 1, p 2]⟩
  | .getPartialObject => ⟨"getPartialObject", [p 0, p 1, p 2, p 3, p 4]⟩
  | .fGetObject => ⟨"fGetObject", [p 0, p 1, p 2]⟩
  | .putObject => ⟨"putObject", [p 0, p 1, p 2, p 3, p 4]⟩
  | .fPutObject => ⟨"fPutObject", [p 0, p 1, p 2]⟩
  | .copyObject => ⟨"copyObject", [p 0, p 1, p 2, p 3]⟩
  | .statObject => ⟨"statObject", [p 0, p 1]⟩
  | .removeObject => ⟨"removeObject", [p 0, p 1, p 2]⟩
  | .removeObjects => ⟨"removeObjects", [p 0, p 1]⟩
  | .removeIncompleteUpload => ⟨"removeIncompleteUpload", [p 0, p 1]⟩
  | .putObjectRetention => ⟨"putObjectRetention", [p 0, p 1, p 2]⟩
  | .getObjectRetention => ⟨"getObjectRetention", [p 0, p 1, p 2]⟩
  | .setObjectRetention => ⟨"setObjectRetention", [p 0, p 1, p 2, p 3]⟩
  | .setObjectTagging => ⟨"putObjectTagging", [p 0, p 1, p 2, p 3]⟩
  | .getObjectTagging => ⟨"getObjectTagging", [p 0, p 1, p 2]⟩
  | .removeObjectTagging => ⟨"removeObjectTagging", [p 0, p 1, p 2]⟩
  | .getObjectLegalHold => ⟨"getObjectLegalHold", [p 0, p 1, p 2]⟩
  | .setObjectLegalHold => ⟨"setObjectLegalHold", [p 0, p 1, p 2]⟩
  | .composeObject => ⟨"composeObject", [p 0, p 1]⟩
  | .selectObjectContent => ⟨"selectObjectContent", [p 0, p 1, p 2]⟩
  | .presignedUrl => ⟨"presignedUrl", [p 0, p 1, p 2, p 3, p 4]⟩
  | .presignedGetObject => ⟨"presignedGetObject", [p 0, p 1, p 2, p 3, p 4]⟩
  | .presignedPutObject => ⟨"presignedPutObject", [p 0, p 1, p 2]⟩
  | .presignedPostPolicy =>
    ⟨"presignedPostPolicy", [postPolicyObj now (p 0) (p 1) (p 3)]⟩

/-- Number of leading caller parameters the operation forwards to the
client (trailing callback formals that the body never forwards, such as
`getBucketTagging`'s, are not counted). Only meaningful for operations that
forward positionally; the repackaging operations are listed in
`specialArgOps`. -/
def fwdArity : Op → Nat
  | .makeBucket => 2
  | .bucketExists => 1
  | .removeBucket => 1
  | .listBuckets => 0
  | .listObjects => 4
  | .listObjectsV2 => 3
  | .listObjectsV2WithMetadata => 4
  | .listIncompleteUploads => 3
  | .getBucketVersioning => 1
  | .setBucketVersioning => 2
  | .setBucketReplication => 2
  | .getBucketReplication => 1
  | .removeBucketReplication => 1
  | .getBucketTagging => 1
  | .setBucketTagging => 2
  | .removeBucketTagging => 1
  | .setBucketLifecycle => 2
  | .getBucketLifecycle => 1
  | .removeBucketLifecycle => 1
  | .setObjectLockConfig => 2
  | .getObjectLockConfig => 1
  | .getBucketEncryption => 1
  | .setBucketEncryption => 2
  | .removeBucketEncryption => 1
  | .setBucketPolicy => 2
  | .getBucketPolicy => 1
  | .getBucketNotification => 1
  | .setBucketNotification => 2
  | .removeAllBucketNotification => 1
  | .listenBucketNotification => 1
  | .getObject => 3
  | .getPartialObject => 5
  | .fGetObject => 3
  | .putObject => 5
  | .fPutObject => 3
  | .copyObject => 4
  | .statObject => 2
  | .removeObject => 3
  | .removeObjects => 2
  | .removeIncompleteUpload => 2
  | .putObjectRetention => 3
  | .getObjectRetention => 3
  | .setObjectRetention => 4
  | .setObjectTagging => 4
  | .getObjectTagging => 3
  | .removeObjectTagging => 3
  | .getObjectLegalHold => 3
  | .setObjectLegalHold => 3
  | .composeObject => 2
  | .selectObjectContent => 3
  | .presignedUrl => 5
  | .presignedGetObject => 5
  | .presignedPutObject => 3
  | .presignedPostPolicy => 4

/-- The operations whose body does not forward its parameters positionally
unchanged: `makeBucket` picks an argument-list variant on `region`,
`getBucketVersioning`, `listObjectsV2` and `listIncompleteUploads` wrap
parameters into one options object, `setBucketPolicy` stringifies the
policy, `presignedPostPolicy` replaces its arguments by a built policy
object, and `removeAllBucketNotification` inserts a built configuration. -/
def specialArgOps : List Op :=
  [.makeBucket, .getBucketVersioning, .listObjectsV2, .listIncompleteUploads,
   .setBucketPolicy, .presignedPostPolicy, .removeAllBucketNotification]

/-- The operation table published by
`MinioDB.prototype.setupDataAccessObject` (lib/minio.js lines 145-212), as
the ordered list of assignments it performs. Each entry `(n, op)` stands
for `this.DataAccessObject.n = MinioDB.prototype.op.bind(self)` — a
callable bound to the connector instance. `bucketExists` is assigned twice
in the source (lines 149 and 152); both assignments are listed. -/
def daoTable : List (String × Op) :=
  [("makeBucket", .makeBucket),
   ("bucketExists", .bucketExists),
   ("removeBucket", .removeBucket),
   ("listBuckets", .listBuckets),
   ("bucketExists", .bucketExists),
   ("listObjects", .listObjects),
   ("listObjectsV2", .listObjectsV2),
   ("listIncompleteUploads", .listIncompleteUploads),
   ("getBucketVersioning", .getBucketVersioning),
   ("setBucketVersioning", .setBucketVersioning),
   ("getBucketTagging", .getBucketTagging),
   ("setBucketTagging", .setBucketTagging),
   ("removeBucketTagging", .removeBucketTagging),
   ("setBucketLifecycle", .setBucketLifecycle),
   ("getBucketLifecycle", .getBucketLifecycle),
   ("removeBucketLifecycle", .removeBucketLifecycle),
   ("setBucketEncryption", .setBucketEncryption),
   ("getBucketEncryption", .getBucketEncryption),
   ("removeBucketEncryption", .removeBucketEncryption),
   ("setBucketReplication", .setBucketReplication),
   ("getBucketReplication", .getBucketReplication),
   ("removeBucketReplication", .removeBucketReplication),
   ("setObjectLockConfig", .setObjectLockConfig),
   ("getObjectLockConfig", .getObjectLockConfig),
   ("setBucketPolicy", .setBucketPolicy),
   ("getBucketPolicy", .getBucketPolicy),
   ("setBucketNotification", .setBucketNotification),
   ("getBucketNotification", .getBucketNotification),
   ("getObject", .getObject),
   ("getPartialObject", .getPartialObject),
   ("fGetObject", .fGetObject),
   ("putObject", .putObject),
   ("fPutObject", .fPutObject),
   ("copyObject", .copyObject),
   ("statObject", .statObject),
   ("removeObject", .removeObject),
   ("removeObjects", .removeObjects),
   ("removeIncompleteUpload", .removeIncompleteUpload),
   ("putObjectRetention", .putObjectRetention),
   ("getObjectRetention", .getObjectRetention),
   ("getObjectLegalHold", .getObjectLegalHold),
   ("setObjectTagging", .setObjectTagging),
   ("getObjectTagging", .getObjectTagging),
   ("removeObjectTagging", .removeObjectTagging),
   ("composeObject", .composeObject),
   ("selectObjectContent", .selectObjectContent),
   ("presignedUrl", .presignedUrl),
   ("presignedGetObject", .presignedGetObject),
   ("presignedPutObject", .presignedPutObject),
   ("presignedPostPolicy", .presignedPostPolicy)]

/-- Every operation defined on `MinioDB.prototype` (each `Op` constructor
corresponds to one `MinioDB.prototype.<name> = function ...` definition in
lib/minio.js). -/
def prototypeOps : List Op :=
  [.makeBucket, .bucketExists, .removeBucket, .listBuckets,
   .listObjects, .listObjectsV2, .listObjectsV2WithMetadata,
   .listIncompleteUploads,
   .getBucketVersioning, .setBucketVersioning,
   .setBucketReplication, .getBucketReplication, .removeBucketReplication,
   .getBucketTagging, .setBucketTagging, .removeBucketTagging,
   .setBucketLifecycle, .getBucketLifecycle, .removeBucketLifecycle,
   .setObjectLockConfig, .getObjectLockConfig,
   .getBucketEncryption, .setBucketEncryption, .removeBucketEncryption,
   .setBucketPolicy, .getBucketPolicy,
   .getBucketNotification, .setBucketNotification,
   .removeAllBucketNotification, .listenBucketNotification,
   .getObject, .getPartialObject, .fGetObject,
   .putObject, .fPutObject, .copyObject, .statObject,
   .removeObject, .removeObjects, .removeIncompleteUpload,
   .putObjectRetention, .getObjectRetention, .setObjectRetention,
   .setObjectTagging, .getObjectTagging, .removeObjectTagging,
   .getObjectLegalHold, .setObjectLegalHold,
   .composeObject, .selectObjectContent,
   .presignedUrl, .presignedGetObject, .presignedPutObject,
   .presignedPostPolicy]

/-- The names present in the published operation table. -/
def daoNames : List String := daoTable.map Prod.fst

theorem isUndef_iff (v : JSVal) : isUndefined v = true ↔ v = JSVal.undefined := by
  cases v <;> simp [isUndefined]

theorem foldl_append_filter {α : Type} (p : α → Bool) :
    ∀ (l acc : List α),
      l.foldl (fun acc kv => if p kv then acc ++ [kv] else acc) acc
        = acc ++ l.filter p := by
  intro l
  induction l with
  | nil => intro acc; simp
  | cons kv rest ih =>
    intro acc
    rw [List.foldl_cons, List.filter_cons]
    by_cases h : p kv = true
    · rw [if_pos h, if_pos h, ih]
      simp
    · rw [if_neg h, if_neg h, ih]

theorem filterValidOptions_eq_filter (settings : List (String × JSVal)) :
    filterValidOptions settings
      = settings.filter (fun kv => validOptionNames.contains kv.1) := by
  simpa [filterValidOptions] using
    foldl_append_filter (fun kv : String × JSVal => validOptionNames.contains kv.1)
      settings []

/-- C1 counterexample: when the underlying `setBucketVersioning` call
reports an error object, the method returns `undefined` — there is no
returned asynchronous result at all, failed or otherwise (the body builds
its promise but never returns it; that orphan promise does reject with the
same error). -/
theorem setBucketVersioning_error_counterexample :
    truthy (JSVal.obj [("message", JSVal.str "boom")]) = true ∧
    (runOp Op.setBucketVersioning (JSVal.obj [("message", JSVal.str "boom")])
        JSVal.undefined JSVal.undefined).returned = none ∧
    (runOp Op.setBucketVersioning (JSVal.obj [("message", JSVal.str "boom")])
        JSVal.undefined JSVal.undefined).orphanOutcome
      = some (Except.error (JSVal.obj [("message", JSVal.str "boom")])) :=
  ⟨rfl, rfl, rfl⟩

/-- C1 (amended): every operation that returns a promise over a
callback-terminated client call rejects that promise with exactly the
error the client reported; `setBucketVersioning`'s unreturned promise
likewise rejects with exactly that error, and `getBucketVersioning`
passes exactly that error to its caller-supplied callback instead of
returning a result. -/
theorem error_passthrough_amended (op : Op) (err data stream : JSVal)
    (h : truthy err = true) :
    (∀ r : RetShape, shape op = OpShape.cbPromise r →
       (runOp op err data stream).returned = some (Except.error err)) ∧
    (shape op = OpShape.cbOnly →
       (runOp op err data stream).callbackArgs = some [err]) ∧
    (∀ r : RetShape, shape op = OpShape.cbPromiseNoReturn r →
       (runOp op err data stream).orphanOutcome = some (Except.error err)) := by
  refine ⟨fun r hs => ?_, fun hs => ?_, fun r hs => ?_⟩ <;>
    simp [runOp, hs, cbOutcome, h]

/-- C1 witness: `listBuckets` with a failing client call rejects with the
reported error object. -/
theorem error_passthrough_amended_witness :
    truthy (JSVal.obj [("message", JSVal.str "boom")]) = true ∧
    (runOp Op.listBuckets (JSVal.obj [("message", JSVal.str "boom")])
        JSVal.undefined JSVal.undefined).returned
      = some (Except.error (JSVal.obj [("message", JSVal.str "boom")])) :=
  ⟨rfl,
   (error_passthrough_amended Op.listBuckets
       (JSVal.obj [("message", JSVal.str "boom")]) JSVal.undefined JSVal.undefined
       rfl).1 RetShape.passData rfl⟩

/-- C2 counterexample: when the underlying `removeObject` call succeeds,
the client's callback carries no value (`undefined`), yet the operation
resolves with the literal `true` — not the value the client produced. -/
theorem removeObject_resolve_counterexample :
    (runOp Op.removeObject JSVal.undefined JSVal.undefined JSVal.undefined).returned
      = some (Except.ok (JSVal.bool true)) ∧
    JSVal.bool true ≠ JSVal.undefined :=
  ⟨rfl, by simp⟩

/-- C2 (amended): an operation that resolves its callback's data resolves
with exactly the client's value, a stream-returning operation resolves with
exactly the handle the client returned, and an operation coded as
`resolve()` resolves with `undefined` (matching its client call's void
result) — but `removeObject` always resolves with the literal `true`,
discarding the client's (void) result. -/
theorem success_passthrough_amended (op : Op) (err data stream : JSVal)
    (h : truthy err = false) :
    (shape op = OpShape.cbPromise RetShape.passData →
       (runOp op err data stream).returned = some (Except.ok data)) ∧
    (shape op = OpShape.streamPromise →
       (runOp op err data stream).returned = some (Except.ok stream)) ∧
    (shape op = OpShape.cbPromise RetShape.unitRet →
       (runOp op err data stream).returned = some (Except.ok JSVal.undefined)) ∧
    (runOp Op.removeObject err data stream).returned
      = some (Except.ok (JSVal.bool true)) := by
  refine ⟨fun hs => ?_, fun hs => ?_, fun hs => ?_, ?_⟩
  · simp [runOp, hs, cbOutcome, resolveValue, h]
  · simp [runOp, hs]
  · simp [runOp, hs, cbOutcome, resolveValue, h]
  · simp [runOp, shape, cbOutcome, resolveValue, h]

/-- C2 witness: `listBuckets` with a succeeding client call resolves with
exactly the bucket list the client produced. -/
theorem success_passthrough_amended_witness :
    truthy JSVal.undefined = false ∧
    (runOp Op.listBuckets JSVal.undefined
        (JSVal.arr [JSVal.obj [("name", JSVal.str "test")]]) JSVal.undefined).returned
      = some (Except.ok (JSVal.arr [JSVal.obj [("name", JSVal.str "test")]])) :=
  ⟨rfl,
   (success_passthrough_amended Op.listBuckets JSVal.undefined _ JSVal.undefined rfl).1 rfl⟩

/-- C3 (confirmed): once `self.client` is set, `connect` invokes the
callback with `(null, self.client)` — the identical existing handle — the
state is unchanged, and the result is the same for every possible client
constructor behavior, so no second client is constructed. -/
theorem connect_idempotent_when_ready (s : Connector) (c : JSVal)
    (h : s.client = some c)
    (ctor : List (String × JSVal) → Except JSVal JSVal) :
    connect ctor s = ConnectResult.callback JSVal.null c s := by
  simp [connect, h]

/-- C3 witness: a Ready connector resolves with its stored handle even
under a constructor that would throw. -/
theorem connect_idempotent_when_ready_witness :
    connect (fun _ => Except.error (JSVal.str "never"))
        ⟨[], some (JSVal.str "handle"), false, true⟩
      = ConnectResult.callback JSVal.null (JSVal.str "handle")
          ⟨[], some (JSVal.str "handle"), false, true⟩ :=
  connect_idempotent_when_ready _ _ rfl _

/-- C4 counterexample: with a client constructor that throws, `connect`
propagates the exception synchronously — the caller's callback is never
invoked, no failed asynchronous result is delivered, and no
`ConnectionError` wrapper exists anywhere in the source. -/
theorem connect_throw_counterexample :
    connect (fun _ => Except.error (JSVal.str "boom")) (newMinioDB [])
      = ConnectResult.thrown (JSVal.str "boom") (newMinioDB []) ∧
    (connect (fun _ => Except.error (JSVal.str "boom"))
        (newMinioDB [])).invokedCallback = false :=
  ⟨rfl, rfl⟩

/-- C4 (amended): if client construction throws while the connector is
Absent, the exception propagates synchronously out of `connect`, unwrapped
(no `ConnectionError`, no callback delivery — the `onError` helper is dead
code); the state is unchanged, the client field still unset, so a later
`connect` with a succeeding constructor resolves with the new handle. -/
theorem connect_throw_amended (s : Connector)
    (ctor : List (String × JSVal) → Except JSVal JSVal) (e : JSVal)
    (h1 : s.client = none) (h2 : s.dataSourceConnecting = false)
    (h3 : ctor (filterValidOptions s.settings) = Except.error e) :
    connect ctor s = ConnectResult.thrown e s ∧
    ∀ (ctor2 : List (String × JSVal) → Except JSVal JSVal) (c : JSVal),
      ctor2 (filterValidOptions s.settings) = Except.ok c →
      connect ctor2 s
        = ConnectResult.callback JSVal.null c
            { s with client := some c, daoPublished := true } := by
  constructor
  · simp [connect, h1, h2, h3]
  · intro ctor2 c hc
    simp [connect, h1, h2, hc]

/-- C4 witness: a throwing construction propagates the thrown value and a
retry with a succeeding constructor then resolves. -/
theorem connect_throw_amended_witness :
    connect (fun _ => Except.error (JSVal.str "bad config"))
        (newMinioDB [("port", JSVal.num 9000)])
      = ConnectResult.thrown (JSVal.str "bad config")
          (newMinioDB [("port", JSVal.num 9000)]) ∧
    connect (fun _ => Except.ok (JSVal.str "handle"))
        (newMinioDB [("port", JSVal.num 9000)])
      = ConnectResult.callback JSVal.null (JSVal.str "handle")
          { newMinioDB [("port", JSVal.num 9000)] with
              client := some (JSVal.str "handle"), daoPublished := true } :=
  ⟨(connect_throw_amended (newMinioDB [("port", JSVal.num 9000)])
      (fun _ => Except.error (JSVal.str "bad config")) (JSVal.str "bad config")
      rfl rfl rfl).1,
   (connect_throw_amended (newMinioDB [("port", JSVal.num 9000)])
      (fun _ => Except.error (JSVal.str "bad config")) (JSVal.str "bad config")
      rfl rfl rfl).2 (fun _ => Except.ok (JSVal.str "handle"))
      (JSVal.str "handle") rfl⟩

/-- C5 (confirmed): the options object `connect` builds in the Absent state
contains a binding exactly for each settings entry whose key is in the
recognized option set, with its value unchanged (every other key is
dropped); and the client is constructed from exactly that filtered object
(shown with a constructor that returns its input, so the handle exhibits
what the constructor received). -/
theorem connect_recognized_options
    (settings : List (String × JSVal)) (k : String) (v : JSVal)
    (s : Connector) (h1 : s.client = none)
    (h2 : s.dataSourceConnecting = false) :
    ((k, v) ∈ filterValidOptions settings
       ↔ ((k, v) ∈ settings ∧ k ∈ validOptionNames)) ∧
    connect (fun opts => Except.ok (JSVal.obj opts)) s
      = ConnectResult.callback JSVal.null
          (JSVal.obj (filterValidOptions s.settings))
          { s with client := some (JSVal.obj (filterValidOptions s.settings)),
                   daoPublished := true } := by
  constructor
  · rw [filterValidOptions_eq_filter]
    simp [List.mem_filter]
  · simp [connect, h1, h2]

/-- C5 witness: a settings object with one recognized key and one unknown
key; the recognized binding survives the filter and the client is built
from the filtered subset only. -/
theorem connect_recognized_options_witness :
    (("endPoint", JSVal.str "localhost")
       ∈ filterValidOptions
           [("endPoint", JSVal.str "localhost"), ("unknownExtra", JSVal.num 1)]) ∧
    connect (fun opts => Except.ok (JSVal.obj opts))
        (newMinioDB
          [("endPoint", JSVal.str "localhost"), ("unknownExtra", JSVal.num 1)])
      = ConnectResult.callback JSVal.null
          (JSVal.obj (filterValidOptions
            [("endPoint", JSVal.str "localhost"), ("unknownExtra", JSVal.num 1)]))
          { newMinioDB
              [("endPoint", JSVal.str "localhost"), ("unknownExtra", JSVal.num 1)] with
              client := some (JSVal.obj (filterValidOptions
                [("endPoint", JSVal.str "localhost"), ("unknownExtra", JSVal.num 1)])),
              daoPublished := true } :=
  ⟨(connect_recognized_options
      [("endPoint", JSVal.str "localhost"), ("unknownExtra", JSVal.num 1)]
      "endPoint" (JSVal.str "localhost")
      (newMinioDB
        [("endPoint", JSVal.str "localhost"), ("unknownExtra", JSVal.num 1)])
      rfl rfl).1.mpr ⟨by simp, by simp [validOptionNames]⟩,
   (connect_recognized_options
      [("endPoint", JSVal.str "localhost"), ("unknownExtra", JSVal.num 1)]
      "endPoint" (JSVal.str "localhost")
      (newMinioDB
        [("endPoint", JSVal.str "localhost"), ("unknownExtra", JSVal.num 1)])
      rfl rfl).2⟩

/-- C6 (confirmed): `makeBucket` selects the underlying call variant solely
on whether `region` is `undefined`: with `region === undefined` the client
receives the single argument `[bucketName]`, otherwise the two arguments
`[bucketName, region]`. -/
theorem makeBucket_region_variant (now : Int) (p : Nat → JSVal) :
    (p 1 = JSVal.undefined →
       clientCall Op.makeBucket now p = ⟨"makeBucket", [p 0]⟩) ∧
    (p 1 ≠ JSVal.undefined →
       clientCall Op.makeBucket now p = ⟨"makeBucket", [p 0, p 1]⟩) := by
  constructor
  · intro h
    simp [clientCall, h, isUndefined]
  · intro h
    have h2 : isUndefined (p 1) = false := by
      cases hp : p 1 <;> simp_all [isUndefined]
    simp [clientCall, h2]

/-- C6 witness: `makeBucket("test")` with region absent selects the
single-argument variant. -/
theorem makeBucket_region_variant_witness :
    clientCall Op.makeBucket 0
        (fun i => [JSVal.str "test"].getD i JSVal.undefined)
      = ⟨"makeBucket", [JSVal.str "test"]⟩ :=
  (makeBucket_region_variant 0
      (fun i => [JSVal.str "test"].getD i JSVal.undefined)).1 rfl

/-- C7 counterexample: `getBucketVersioning` returns `undefined` — no
asynchronous result at all — and delivers its outcome only through the
caller-supplied callback (`callback(null, data)` on success). -/
theorem getBucketVersioning_callback_counterexample :
    (runOp Op.getBucketVersioning JSVal.undefined (JSVal.str "Enabled")
        JSVal.undefined).returned = none ∧
    (runOp Op.getBucketVersioning JSVal.undefined (JSVal.str "Enabled")
        JSVal.undefined).callbackArgs
      = some [JSVal.null, JSVal.str "Enabled"] :=
  ⟨rfl, rfl⟩

/-- C7 (amended): every operation except `getBucketVersioning` and
`setBucketVersioning` returns a promise producing exactly one eventual
outcome and never invokes a caller-supplied callback; `getBucketVersioning`
returns `undefined` and delivers its result only through its callback, and
`setBucketVersioning` returns `undefined` as well (its outcome lives only
on a promise it never returns). -/
theorem single_outcome_amended (op : Op) (err data stream : JSVal)
    (h1 : op ≠ Op.getBucketVersioning) (h2 : op ≠ Op.setBucketVersioning) :
    ((runOp op err data stream).returned).isSome = true ∧
    (runOp op err data stream).callbackArgs = none := by
  cases op <;> first
    | exact absurd rfl h1
    | exact absurd rfl h2
    | exact ⟨rfl, rfl⟩

/-- C7 witness: `listIncompleteUploads` (despite declaring a callback
formal it never uses) returns a promise and invokes no callback. -/
theorem single_outcome_amended_witness :
    ((runOp Op.listIncompleteUploads JSVal.undefined JSVal.undefined
        (JSVal.str "stream")).returned).isSome = true ∧
    (runOp Op.listIncompleteUploads JSVal.undefined JSVal.undefined
        (JSVal.str "stream")).callbackArgs = none :=
  single_outcome_amended Op.listIncompleteUploads JSVal.undefined JSVal.undefined
    (JSVal.str "stream") (by simp) (by simp)

/-- C8 counterexample: `listObjectsV2("test", "p", true)` does not forward
its three arguments positionally; the client receives a single options
object built from them. -/
theorem listObjectsV2_repackage_counterexample :
    (clientCall Op.listObjectsV2 0 (fun i =>
        [JSVal.str "test", JSVal.str "p", JSVal.bool true].getD i JSVal.undefined)).args
      = [JSVal.obj [("Bucket", JSVal.str "test"), ("Prefix", JSVal.str "p"),
                    ("Recursive", JSVal.bool true)]] ∧
    [JSVal.obj [("Bucket", JSVal.str "test"), ("Prefix", JSVal.str "p"),
                ("Recursive", JSVal.bool true)]]
      ≠ [JSVal.str "test", JSVal.str "p", JSVal.bool true] :=
  ⟨rfl, by simp⟩

/-- C8 (amended): every operation outside `specialArgOps` forwards its
parameters to the client positionally unchanged; among the exceptions,
`setBucketPolicy` passes `JSON.stringify(policy)` in place of the policy
and `listObjectsV2` repackages its three parameters into one options
object. -/
theorem args_passthrough_amended (op : Op) (h : op ∉ specialArgOps)
    (now : Int) (p : Nat → JSVal) :
    (clientCall op now p).args = (List.range (fwdArity op)).map p ∧
    (clientCall Op.setBucketPolicy now p).args = [p 0, jsonStringify (p 1)] ∧
    (clientCall Op.listObjectsV2 now p).args
      = [JSVal.obj [("Bucket", p 0), ("Prefix", p 1), ("Recursive", p 2)]] := by
  refine ⟨?_, rfl, rfl⟩
  cases op <;> first
    | exact absurd (by decide) h
    | rfl

/-- C8 witness: `removeObject` forwards its three arguments unchanged. -/
theorem args_passthrough_amended_witness :
    Op.removeObject ∉ specialArgOps ∧
    (clientCall Op.removeObject 0 (fun i =>
        [JSVal.str "test", JSVal.str "missing.txt", JSVal.obj []].getD i
          JSVal.undefined)).args
      = (List.range (fwdArity Op.removeObject)).map (fun i =>
          [JSVal.str "test", JSVal.str "missing.txt", JSVal.obj []].getD i
            JSVal.undefined) :=
  ⟨by decide,
   (args_passthrough_amended Op.removeObject (by decide) 0 (fun i =>
      [JSVal.str "test", JSVal.str "missing.txt", JSVal.obj []].getD i
        JSVal.undefined)).1⟩

/-- C9 (confirmed): the published operation table has no entry named
`setObjectRetention`, `setObjectLegalHold`, `listObjectsV2WithMetadata`,
`removeAllBucketNotification` or `listenBucketNotification`, although each
of those operations is defined on the prototype; and every entry the table
does contain binds one of the prototype's methods to the connector
instance. -/
theorem dao_table_contents :
    ("setObjectRetention" ∉ daoNames) ∧
    ("setObjectLegalHold" ∉ daoNames) ∧
    ("listObjectsV2WithMetadata" ∉ daoNames) ∧
    ("removeAllBucketNotification" ∉ daoNames) ∧
    ("listenBucketNotification" ∉ daoNames) ∧
    Op.setObjectRetention ∈ prototypeOps ∧
    Op.setObjectLegalHold ∈ prototypeOps ∧
    Op.listObjectsV2WithMetadata ∈ prototypeOps ∧
    Op.removeAllBucketNotification ∈ prototypeOps ∧
    Op.listenBucketNotification ∈ prototypeOps ∧
    daoTable.all (fun e => prototypeOps.contains e.2) = true := by
  decide

/-- C10 (confirmed): with a callback given, a truthy `lazyConnect` setting
makes `initialize` schedule the bare callback and never call `connect`, and
the freshly constructed connector has no client handle; with `lazyConnect`
absent or falsy, `initialize` calls `connect(callback)` immediately. -/
theorem initialize_lazyConnect (settings : List (String × JSVal)) :
    (truthy (jsGet settings "lazyConnect") = true →
       initializeDataSource settings true
         = (newMinioDB settings, InitAction.scheduledCallbackOnly) ∧
       (newMinioDB settings).client = none) ∧
    (truthy (jsGet settings "lazyConnect") = false →
       initializeDataSource settings true
         = (newMinioDB settings, InitAction.connectCalled)) := by
  constructor
  · intro h
    exact ⟨by simp [initializeDataSource, h], rfl⟩
  · intro h
    simp [initializeDataSource, h]

/-- C10 witness: `lazyConnect: true` schedules the callback only, and an
empty settings object connects immediately. -/
theorem initialize_lazyConnect_witness :
    (initializeDataSource [("lazyConnect", JSVal.bool true)] true
       = (newMinioDB [("lazyConnect", JSVal.bool true)],
          InitAction.scheduledCallbackOnly)) ∧
    (initializeDataSource [] true
       = (newMinioDB [], InitAction.connectCalled)) :=
  ⟨((initialize_lazyConnect [("lazyConnect", JSVal.bool true)]).1 rfl).1,
   (initialize_lazyConnect []).2 rfl⟩
